import Mathlib

/-!
Shallow embedding of `src/main.py` (marugujarat.in listing scraper).

External effects (HTTP, HTML parsing, the Mongo checkpoint collection, the
Telegram transport, the URL shortener, wall-clock time) are modelled by an
explicit `Env` record of deterministic functions; the checkpoint collection is
threaded as a `List Record`.  Machine behaviour that the Python source obtains
from library calls (`urlparse`, `os.path.basename`, `os.path.splitext`,
`str.split`, the `in` substring test, `str.strip`) is re-implemented here on
`List Char` so that every definition is executable by the kernel.
-/

namespace MaruGujarat

/-- Python `pre.isPrefixOf s` on char lists: `isPrefixOfL p s` is true iff
`p` is a prefix of `s` (empty pattern is a prefix of everything). -/
def isPrefixOfL : List Char → List Char → Bool
  | [], _ => true
  | _ :: _, [] => false
  | a :: as, b :: bs => a = b && isPrefixOfL as bs

/-- Python substring test `pat in s` (`containsL pat s`): some suffix of `s`
has `pat` as a prefix. -/
def containsL (pat : List Char) : List Char → Bool
  | [] => isPrefixOfL pat []
  | c :: t => isPrefixOfL pat (c :: t) || containsL pat t

/-- Python `pat in s` on strings. -/
def strContains (s pat : String) : Bool := containsL pat.data s.data

/-- Drop everything up to and including the first occurrence of `pat`;
`none` when `pat` does not occur.  Used to model `str.split(sep)[1:]`
style access and scheme stripping. -/
def dropAfterSub (pat : List Char) : List Char → Option (List Char)
  | [] => if isPrefixOfL pat [] then some [] else none
  | c :: t =>
    if isPrefixOfL pat (c :: t) then some (List.drop pat.length (c :: t))
    else dropAfterSub pat t

/-- Python `content_type.split('/')[1]`: the segment between the first `'/'`
and the next `'/'` (or end); `none` models the `IndexError` raised when no
`'/'` occurs. -/
def subtypeOf (ct : String) : Option String :=
  match dropAfterSub ['/'] ct.data with
  | some rest => some ((rest.takeWhile (fun c => c ≠ '/')).asString)
  | none => none

/-- Python `s.strip(c)` for a single character: remove every leading and
trailing occurrence of `c`. -/
def stripCharL (c : Char) (s : List Char) : List Char :=
  ((s.dropWhile (fun x => x = c)).reverse.dropWhile (fun x => x = c)).reverse

/-- `link.find_previous('b').text.strip(':')` uses `strip(':')`. -/
def stripColon (s : String) : String := (stripCharL ':' s.data).asString

/-- Python `s.strip()`: remove leading and trailing whitespace. -/
def trimL (s : List Char) : List Char :=
  ((s.dropWhile Char.isWhitespace).reverse.dropWhile Char.isWhitespace).reverse

/-- String-level `strip()`. -/
def trimS (s : String) : String := (trimL s.data).asString

/-- The part of `p` after the last `'/'` — `os.path.basename`. -/
def basenameL (p : List Char) : List Char :=
  (p.reverse.takeWhile (fun c => c ≠ '/')).reverse

/-- `os.path.basename` on strings. -/
def basename (p : String) : String := (basenameL p.data).asString

/-- `urlparse(url).path`: strip the fragment (first `'#'`), the query
(first `'?'`), the scheme and network location (text up to and including
`"://"` and then up to the first `'/'`), and the params (from the first
`';'` of the last path segment).  URLs without `"://"` are kept whole as
the path, matching `urlparse` on scheme-less input. -/
def urlPathL (u : List Char) : List Char :=
  let nf := u.takeWhile (fun c => c ≠ '#')
  let nq := nf.takeWhile (fun c => c ≠ '?')
  let rest :=
    match dropAfterSub [':', '/', '/'] nq with
    | some after => after.dropWhile (fun c => c ≠ '/')
    | none => nq
  let base := basenameL rest
  let pre := rest.take (rest.length - base.length)
  pre ++ base.takeWhile (fun c => c ≠ ';')

/-- `urlparse(url).path` on strings. -/
def url_path (url : String) : String := (urlPathL url.data).asString

/-- `os.path.splitext(p)[1]` restricted to the final path segment: the
substring from the last `'.'` of the basename, unless every character of the
basename before that dot is itself a dot (so `.bashrc` has no extension). -/
def splitextExtL (p : List Char) : List Char :=
  let b := basenameL p
  let afterDot := b.reverse.takeWhile (fun c => c ≠ '.')
  if afterDot.length = b.length then []
  else
    let pre := b.take (b.length - afterDot.length - 1)
    if pre.all (fun c => c = '.') then [] else '.' :: afterDot.reverse

/-- `os.path.splitext(p)[1]` on strings. -/
def splitext_ext (p : String) : String := (splitextExtL p.data).asString

/-- One HTTP response as far as the pipeline inspects it: the declared
`Content-Type` header (absent headers give Python `None`) and the byte size
of the body that `iter_content` writes to disk. -/
structure HttpResponse where
  contentType : Option String
  bodySize : Nat
deriving DecidableEq

/-- Outcome of one `session.get` attempt: success (2xx after
`raise_for_status`), an `SSLError`, or any other `RequestException`
(connection errors, HTTP error statuses, per-attempt timeouts). -/
inductive FetchOutcome
  | ok (resp : HttpResponse)
  | sslError
  | requestError
deriving DecidableEq

/-- The parsed item page as BeautifulSoup exposes it to the scraper: the
`h1.entry-title` text (raw, pre-`strip()`) and the `(preceding <b> text,
href)` pairs found inside `blockquote.style-3` blocks, in document order. -/
structure Page where
  entryTitle : Option String
  detailLinks : List (String × String)

/-- A document in the Mongo checkpoint collection:
`{"url": ..., "title": ..., "scraped_at": time.time()}`. -/
structure Record where
  url : String
  title : String
  scraped_at : Nat
deriving DecidableEq

/-- One composed-and-sent Telegram message: the text, the optional attached
file, and whether the transport accepted it (`send_to_telegram` logs and
swallows transport errors, so this flag is observational only). -/
structure Sent where
  text : String
  file : Option String
  delivered : Bool
deriving DecidableEq

/-- The deterministic external world: HTTP outcomes per (url, verify flag,
attempt index), the parsed page per item url, the index page's matching
anchors (already resolved via `urljoin`), the shortener and Telegram
transports, stage durations in seconds, and the clock. -/
structure Env where
  fetch : String → Bool → Nat → FetchOutcome
  parsePage : String → Page
  indexLinks : List String
  shorten : String → Except String String
  deliver : String → Option String → Except String Unit
  extractTime : String → Nat
  downloadTime : String → Nat
  now : Nat

/-- Intermediate result of `make_request`'s retry loop: either a final
answer, or an escape to the unverified fallback (`SSLError` seen while
`verify` was true). -/
inductive MRStep
  | done (r : Option HttpResponse)
  | sslFallback
deriving DecidableEq

/-- The `for attempt in range(max_retries)` loop of `make_request`, counted
by the number of attempts still allowed (the loop enters with
`remaining = max_retries`, so the current attempt index is
`max_retries - remaining`; `remaining = 0` is loop exhaustion, the final
`return None`).  Returns the step outcome together with the `verify` flags of
every `session.get` actually issued, in order. -/
def mr_loop (env : Env) (url : String) (verify : Bool) (max_retries : Nat) :
    Nat → MRStep × List Bool
  | 0 => (.done none, [])
  | remaining + 1 =>
    match env.fetch url verify (max_retries - (remaining + 1)) with
    | .ok resp => (.done (some resp), [verify])
    | .sslError => (if verify then .sslFallback else .done none, [verify])
    | .requestError =>
      if remaining = 0 then (.done none, [verify])
      else
        let r := mr_loop env url verify max_retries remaining
        (r.1, verify :: r.2)

/-- `make_request(url, verify=False, max_retries=n)`: no further SSL
fallback is available, an `SSLError` returns `None`. -/
def make_request_noverify (env : Env) (url : String) (max_retries : Nat) :
    Option HttpResponse × List Bool :=
  match mr_loop env url false max_retries max_retries with
  | (.done r, t) => (r, t)
  | (.sslFallback, t) => (none, t)

/-- `make_request(url, verify=True, max_retries=1)` with the source's default
arguments.  The second component records the `verify` flag of each
`session.get` issued.  On `SSLError` with `verify=True` the source calls
itself with `verify=False, max_retries=max_retries-1`. -/
def make_request (env : Env) (url : String) (verify : Bool := true)
    (max_retries : Nat := 1) : Option HttpResponse × List Bool :=
  if verify then
    match mr_loop env url true max_retries max_retries with
    | (.done r, t) => (r, t)
    | (.sslFallback, t) =>
      let r2 := make_request_noverify env url (max_retries - 1)
      (r2.1, t ++ r2.2)
  else make_request_noverify env url max_retries

/-- `send_to_telegram(message, file)`: attempts one delivery and catches any
transport exception (`except Exception as e: logger.error(...)`), so the
function itself always returns; the Bool records whether delivery
succeeded. -/
def send_to_telegram (env : Env) (message : String) (file : Option String := none) : Bool :=
  match env.deliver message file with
  | Except.ok _ => true
  | Except.error _ => false

/-- `download_and_verify_file(url, timeout=30)`.  The download runs
`make_request` in a worker thread and abandons it (`TimeoutError → None`)
when it takes longer than `timeout` seconds.  On success the extension is
chosen from the `Content-Type` header (substring tests `'pdf' in ct`,
`'image' in ct`), else from the URL path's extension, else `'.pdf'`; the
base name is `os.path.basename(urlparse(url).path) or 'download'`.  A missing
`Content-Type` header (`'pdf' in None` → `TypeError`) and a slash-less image
type (`split('/')[1]` → `IndexError`) are swallowed by the function's
`except Exception` and give `None`.  The second component is the list of
files left on disk by the call: a zero-byte download is written and then
removed (`os.remove`), so it leaves nothing. -/
def download_and_verify_file (env : Env) (url : String) (timeout : Nat := 30) :
    Option String × List String :=
  if timeout < env.downloadTime url then (none, [])
  else match (make_request env url).1 with
  | none => (none, [])
  | some resp =>
    match resp.contentType with
    | none => (none, [])
    | some ct =>
      let extOpt : Option String :=
        if strContains ct "pdf" then some ".pdf"
        else if strContains ct "image" then
          match subtypeOf ct with
          | some sub => some ("." ++ sub)
          | none => none
        else
          let e := splitext_ext (url_path url)
          some (if e = "" then ".pdf" else e)
      match extOpt with
      | none => (none, [])
      | some ext =>
        let b := basename (url_path url)
        let filename := (if b = "" then "download" else b) ++ ext
        if 0 < resp.bodySize then (some filename, [filename]) else (none, [])

/-- `shorten_url(url)`: sleeps 2 s, then tries `shortener.tinyurl.short(url)`
and returns the original `url` on any exception. -/
def shorten_url (env : Env) (url : String) : String :=
  match env.shorten url with
  | Except.ok short => short
  | Except.error _ => url

/-- The index endpoint queried by `fetch_urls`. -/
def base_url : String := "https://www.marugujarat.in/"

/-- `fetch_urls()`: one `make_request(base_url)`; an unreachable index page
yields `[]`; otherwise the hrefs of the anchors with class `_self cvplbd`,
resolved with `urljoin` (the env supplies them already resolved). -/
def fetch_urls (env : Env) : List String :=
  match (make_request env base_url).1 with
  | none => []
  | some _ => env.indexLinks

/-- Python dict assignment `d[k] = v`: an existing key keeps its original
position and gets the new value, a new key is appended. -/
def dict_insert (d : List (String × String)) (k v : String) : List (String × String) :=
  if d.any (fun p => p.1 == k) then
    d.map (fun p => if p.1 == k then (k, v) else p)
  else d ++ [(k, v)]

/-- The keyword test of `scrape_selected_url`:
`any(keyword in text for keyword in ['Job Advertisement', 'Official website',
'Apply Online', 'Job Notification'])`. -/
def keyword_match (text : String) : Bool :=
  strContains text "Job Advertisement" || strContains text "Official website" ||
    strContains text "Apply Online" || strContains text "Job Notification"

/-- `scrape_selected_url(url)`: fetch the page (`(None, None)` when
unreachable or when `h1.entry-title` is missing — modelled `(none, [])`),
strip the title, and build `job_details` from each blockquote link whose
preceding `<b>` text (after `strip(':')`) matches a keyword. -/
def scrape_selected_url (env : Env) (url : String) :
    Option String × List (String × String) :=
  match (make_request env url).1 with
  | none => (none, [])
  | some _ =>
    let page := env.parsePage url
    match page.entryTitle with
    | none => (none, [])
    | some raw =>
      let jd := page.detailLinks.foldl (fun d kv =>
        let text := stripColon kv.1
        if keyword_match text then dict_insert d text kv.2 else d) []
      (some (trimS raw), jd)

/-- The role-specific message line of `handle_files_and_send_to_telegram`'s
`if 'Job Advertisement' in key: ... elif ...` chain. -/
def role_line (key short : String) : String :=
  if strContains key "Job Advertisement" then "📝 Job Advertisement: " ++ short ++ "\n"
  else if strContains key "Job Notification" then "📄 Job Notification: " ++ short ++ "\n"
  else if strContains key "Official website" then "🌐 Official Website: " ++ short ++ "\n"
  else if strContains key "Apply Online" then "🖥️ Apply Online: " ++ short ++ "\n"
  else "🔗 " ++ key ++ ": " ++ short ++ "\n"

/-- First trailing promotional footer (verbatim from the source). -/
def promo_message : String :=
  "\n👉 ધણી વખત PDF મોક્લવામાં કરપ્ટ થઇ જતી હોઇ તો તમે ઉપર આપેલી જે તે લિંક પરથી સિધી Download કરી શકો છો. 👈"

/-- Second trailing promotional footer (verbatim from the source). -/
def promo_message_1 : String :=
  "\n🚀 આવી જ તમામ જોબ અપડેટ રેગ્યુલર કોઇ પણ એડ વગર જોવા માટે અમારા ચેનલમાં જોડાઇ જાવ ! 🚀\n👉 https://t.me/currentadda 👈"

/-- The `for key, url in job_details.items()` loop: accumulates the message
text, the `job_notification_file` slot (overwritten by each successful
`'Job Notification'` download) and the `other_files` list (successful
downloads of every other role, in order). -/
def handle_fold (env : Env) :
    String × Option String × List String → List (String × String) →
    String × Option String × List String
  | acc, [] => acc
  | (msg, jnf, others), (key, url) :: rest =>
    let short := shorten_url env url
    let msg := msg ++ role_line key short
    let fp := (download_and_verify_file env url).1
    let acc :=
      match fp with
      | some p =>
        if strContains key "Job Notification" then (msg, some p, others)
        else (msg, jnf, others ++ [p])
      | none => (msg, jnf, others)
    handle_fold env acc rest

/-- `handle_files_and_send_to_telegram(title, job_details)`: skip when the
title is `None`; otherwise build the message, download each labelled link,
append the promotional footers, pick
`job_notification_file or other_files[0] or None` as the single attachment,
and send.  The returned `Sent` records what was handed to the transport. -/
def handle_files_and_send_to_telegram (env : Env) (title : Option String)
    (job_details : List (String × String)) : Option Sent :=
  match title with
  | none => none
  | some t =>
    let msg0 := "📢 " ++ t ++ " 📢\n\n"
    let acc := handle_fold env (msg0, none, []) job_details
    let message := acc.1 ++ promo_message ++ promo_message_1
    let file_to_send : Option String :=
      match acc.2.1 with
      | some f => some f
      | none => acc.2.2.head?
    some { text := message, file := file_to_send,
           delivered := send_to_telegram env message file_to_send }

/-- `is_url_scraped(url)`: `collection.find_one({"url": url}) is not None`. -/
def is_url_scraped (store : List Record) (url : String) : Bool :=
  store.any (fun r => r.url == url)

/-- `mark_url_as_scraped(url, title)`:
`collection.insert_one({"url": url, "title": title, "scraped_at": time.time()})` —
a plain insert that appends one document. -/
def mark_url_as_scraped (store : List Record) (url title : String) (now : Nat) :
    List Record :=
  store ++ [{ url := url, title := title, scraped_at := now }]

/-- Stage transitions observable for one `scrape_and_send` call, in
chronological order. -/
inductive Event
  | skipped
  | timedOut
  | extractFailed
  | extracted
  | notified
  | marked (url : String)
deriving DecidableEq

/-- Result of one `scrape_and_send` call: the checkpoint collection after the
call, the messages handed to the Telegram transport, and the stage events in
order. -/
structure ScrapeResult where
  store : List Record
  sent : List Sent
  events : List Event
deriving DecidableEq

/-- `scrape_and_send(url, timeout=120)`: skip when already checkpointed;
`asyncio.wait_for(scrape_selected_url(url), timeout)` abandons the item when
extraction alone exceeds `timeout` (`TimeoutError` is caught, nothing is
written); `if title:` also rejects an empty title; otherwise
`handle_files_and_send_to_telegram` runs to completion (it swallows its own
errors) and `mark_url_as_scraped` is called afterwards. -/
def scrape_and_send (env : Env) (store : List Record) (url : String)
    (timeout : Nat := 120) : ScrapeResult :=
  if is_url_scraped store url then ⟨store, [], [.skipped]⟩
  else if timeout < env.extractTime url then ⟨store, [], [.timedOut]⟩
  else match scrape_selected_url env url with
  | (some t, jd) =>
    if t = "" then ⟨store, [], [.extractFailed]⟩
    else
      let sent := handle_files_and_send_to_telegram env (some t) jd
      ⟨mark_url_as_scraped store url t env.now, sent.toList,
        [.extracted, .notified, .marked url]⟩
  | (none, _) => ⟨store, [], [.extractFailed]⟩

/-- `get_unscraped_urls(urls)`. -/
def get_unscraped_urls (store : List Record) (urls : List String) : List String :=
  urls.filter (fun u => !is_url_scraped store u)

/-- The `for url in unscraped_urls` loop of `main`, threading the checkpoint
collection and accumulating every message handed to the transport. -/
def main_loop (env : Env) : List Record × List Sent → List String → List Record × List Sent
  | acc, [] => acc
  | acc, url :: rest =>
    let r := scrape_and_send env acc.1 url
    main_loop env (r.store, acc.2 ++ r.sent) rest

/-- `main()`: one discovery-and-delivery cycle over the given checkpoint
collection state. -/
def main_run (env : Env) (store : List Record) : List Record × List Sent :=
  main_loop env (store, []) (get_unscraped_urls store (fetch_urls env))

/-- The env-determined outcome of processing one not-yet-checkpointed URL:
`none` when extraction times out, fails, or yields a falsy title; otherwise
the title together with what `handle_files_and_send_to_telegram` sent.
(Proof-side abbreviation: `scrape_and_send` on an unseen URL is characterised
by this value, independently of the store contents.) -/
def item_attempt (env : Env) (url : String) (timeout : Nat) :
    Option (String × Option Sent) :=
  if timeout < env.extractTime url then none
  else match scrape_selected_url env url with
  | (some t, jd) =>
    if t = "" then none
    else some (t, handle_files_and_send_to_telegram env (some t) jd)
  | (none, _) => none

/-- Wall-clock seconds one item's processing occupies in the source: the
extraction duration, plus — when extraction succeeds with a truthy title —
2 s of shortener pause and up to 30 s of download wait
(`future.result(timeout=30)`) per labelled link. -/
def handle_elapsed (env : Env) (job_details : List (String × String)) : Nat :=
  job_details.foldl (fun a kv => a + 2 + min (env.downloadTime kv.2) 30) 0

/-- Total wall-clock seconds for one item (extraction plus attachment
handling); composition and the transport call are counted as instantaneous. -/
def item_elapsed (env : Env) (url : String) : Nat :=
  env.extractTime url +
    match scrape_selected_url env url with
    | (some t, jd) => if t = "" then 0 else handle_elapsed env jd
    | (none, _) => 0

/-- Substring-occurrence as a proposition: `t` occurs inside `s`. -/
def ContainsSub (s t : String) : Prop := ∃ a b, s = a ++ t ++ b

/-- A `Content-Type: application/pdf` response with a one-byte body. -/
def respPdf : HttpResponse := { contentType := some "application/pdf", bodySize := 1 }

/-- A world in which every `session.get` raises `SSLError`. -/
def envSsl : Env where
  fetch := fun _ _ _ => .sslError
  parsePage := fun _ => { entryTitle := none, detailLinks := [] }
  indexLinks := []
  shorten := fun _ => Except.error "err"
  deliver := fun _ _ => Except.error "err"
  extractTime := fun _ => 0
  downloadTime := fun _ => 0
  now := 0

/-- A world in which every fetch succeeds with a small PDF, pages parse to a
fixed listing with an Official-website link and a Job-Notification link, the
shortener always errors, and the Telegram transport always errors. -/
def envOk : Env where
  fetch := fun _ _ _ => .ok respPdf
  parsePage := fun _ =>
    { entryTitle := some "Job X"
      detailLinks := [("Official website", "https://h/a.pdf"),
                      ("Job Notification", "https://h/b.pdf")] }
  indexLinks := ["https://www.marugujarat.in/job-x/"]
  shorten := fun _ => Except.error "rate"
  deliver := fun _ _ => Except.error "down"
  extractTime := fun _ => 0
  downloadTime := fun _ => 0
  now := 7

/-- A world whose downloads all come back with an empty body. -/
def envZero : Env where
  fetch := fun _ _ _ => .ok { contentType := some "application/pdf", bodySize := 0 }
  parsePage := fun _ => { entryTitle := some "Job Z", detailLinks := [] }
  indexLinks := []
  shorten := fun _ => Except.error "err"
  deliver := fun _ _ => Except.ok ()
  extractTime := fun _ => 0
  downloadTime := fun _ => 0
  now := 0

/-- A world where extraction takes 1 s but each of the five labelled links
takes 1000 s to download (each hits the 30 s per-download timeout), so the
item occupies 1 + 5·(2+30) = 161 s of wall-clock time — beyond the 120 s
`scrape_and_send` timeout — while still completing. -/
def envSlow : Env where
  fetch := fun _ _ _ => .ok respPdf
  parsePage := fun _ =>
    { entryTitle := some "Job S"
      detailLinks := [("Job Advertisement", "https://h/1.pdf"),
                      ("Official website", "https://h/2.pdf"),
                      ("Apply Online", "https://h/3.pdf"),
                      ("Job Notification", "https://h/4.pdf"),
                      ("Job Advertisement 2", "https://h/5.pdf")] }
  indexLinks := ["https://www.marugujarat.in/job-s/"]
  shorten := fun _ => Except.error "rate"
  deliver := fun _ _ => Except.ok ()
  extractTime := fun _ => 1
  downloadTime := fun _ => 1000
  now := 3

/-! ## Shared helper lemmas -/

/-- `handle_files_and_send_to_telegram` with a present title always returns a
message whose delivered flag is exactly the transport's verdict on that
message. -/
theorem handle_some (env : Env) (t : String) (jd : List (String × String)) :
    ∃ s, handle_files_and_send_to_telegram env (some t) jd = some s ∧
      s.delivered = send_to_telegram env s.text s.file :=
  ⟨_, rfl, rfl⟩

/-- Skipping branch of `scrape_and_send`. -/
theorem scrape_skip (env : Env) (st : List Record) (url : String) (T : Nat)
    (h : is_url_scraped st url = true) :
    scrape_and_send env st url T = ⟨st, [], [.skipped]⟩ := by
  unfold scrape_and_send
  simp [h]

/-- On a not-yet-checkpointed URL the store after `scrape_and_send` is
determined by the env-only `item_attempt` outcome. -/
theorem scrape_store_of_not_scraped (env : Env) (st : List Record) (url : String)
    (T : Nat) (h : is_url_scraped st url = false) :
    (scrape_and_send env st url T).store =
      (match item_attempt env url T with
       | some (t, _) => mark_url_as_scraped st url t env.now
       | none => st) := by
  unfold scrape_and_send item_attempt
  simp only [h, Bool.false_eq_true, if_false]
  by_cases hT : T < env.extractTime url
  · simp [hT]
  · simp only [hT, if_false]
    rcases hx : scrape_selected_url env url with ⟨t?, jd⟩
    rcases t? with _ | t
    · simp
    · by_cases ht : t = "" <;> simp [ht]

/-- On a not-yet-checkpointed URL the messages sent by `scrape_and_send` are
determined by the env-only `item_attempt` outcome. -/
theorem scrape_sent_of_not_scraped (env : Env) (st : List Record) (url : String)
    (T : Nat) (h : is_url_scraped st url = false) :
    (scrape_and_send env st url T).sent =
      (match item_attempt env url T with
       | some (_, s) => s.toList
       | none => []) := by
  unfold scrape_and_send item_attempt
  simp only [h, Bool.false_eq_true, if_false]
  by_cases hT : T < env.extractTime url
  · simp [hT]
  · simp only [hT, if_false]
    rcases hx : scrape_selected_url env url with ⟨t?, jd⟩
    rcases t? with _ | t
    · simp
    · by_cases ht : t = "" <;> simp [ht]

/-- Membership in the checkpoint store after `mark_url_as_scraped`. -/
theorem is_url_scraped_mark (st : List Record) (u t : String) (n : Nat) (x : String) :
    is_url_scraped (mark_url_as_scraped st u t n) x =
      (is_url_scraped st x || (u == x)) := by
  simp [is_url_scraped, mark_url_as_scraped, List.any_append]

/-- `scrape_and_send` never removes a URL from the checkpoint store. -/
theorem scrape_store_mono (env : Env) (st : List Record) (url : String) (T : Nat)
    (x : String) (h : is_url_scraped st x = true) :
    is_url_scraped (scrape_and_send env st url T).store x = true := by
  by_cases hs : is_url_scraped st url
  · rw [scrape_skip env st url T hs]; exact h
  · have hs' : is_url_scraped st url = false := by simpa using hs
    rw [scrape_store_of_not_scraped env st url T hs']
    rcases item_attempt env url T with _ | ⟨t, s⟩
    · exact h
    · rw [is_url_scraped_mark]
      simp [h]

/-- A successful `item_attempt` on a fresh URL checkpoints it. -/
theorem scrape_marks (env : Env) (st : List Record) (url : String) (T : Nat)
    (t : String) (s : Option Sent) (h : is_url_scraped st url = false)
    (hi : item_attempt env url T = some (t, s)) :
    is_url_scraped (scrape_and_send env st url T).store url = true := by
  rw [scrape_store_of_not_scraped env st url T h, hi, is_url_scraped_mark]
  simp

/-- The per-run loop never removes a URL from the checkpoint store. -/
theorem main_loop_mono (env : Env) :
    ∀ (L : List String) (st : List Record) (acc : List Sent) (x : String),
      is_url_scraped st x = true →
      is_url_scraped (main_loop env (st, acc) L).1 x = true := by
  intro L
  induction L with
  | nil => intro st acc x h; simpa [main_loop] using h
  | cons u rest ih =>
    intro st acc x h
    simp only [main_loop]
    exact ih _ _ x (scrape_store_mono env st u 120 x h)

/-- A URL processed by a run but absent from its final store must have an
env-determined failing `item_attempt`. -/
theorem main_loop_absent (env : Env) (u : String) :
    ∀ (L : List String) (st : List Record) (acc : List Sent),
      u ∈ L → is_url_scraped (main_loop env (st, acc) L).1 u = false →
      item_attempt env u 120 = none := by
  intro L
  induction L with
  | nil => intro st acc h _; exact absurd h (List.not_mem_nil u)
  | cons v rest ih =>
    intro st acc hmem hfin
    simp only [main_loop] at hfin
    rcases List.mem_cons.mp hmem with heq | hmem'
    · subst heq
      by_cases hs : is_url_scraped st u = true
      · have hm := main_loop_mono env rest (scrape_and_send env st u).store
          (acc ++ (scrape_and_send env st u).sent) u (scrape_store_mono env st u 120 u hs)
        rw [hm] at hfin
        exact absurd hfin (by decide)
      · have hs' : is_url_scraped st u = false := by simpa using hs
        rcases hi : item_attempt env u 120 with _ | ⟨t, s⟩
        · rfl
        · have hmark := scrape_marks env st u 120 t s hs' hi
          have hm := main_loop_mono env rest (scrape_and_send env st u).store
            (acc ++ (scrape_and_send env st u).sent) u hmark
          rw [hm] at hfin
          exact absurd hfin (by decide)
    · exact ih _ _ hmem' hfin

/-- A run whose URLs are all fresh and all env-doomed changes nothing and
sends nothing. -/
theorem main_loop_inert (env : Env) :
    ∀ (L : List String) (st : List Record) (acc : List Sent),
      (∀ u ∈ L, is_url_scraped st u = false ∧ item_attempt env u 120 = none) →
      main_loop env (st, acc) L = (st, acc) := by
  intro L
  induction L with
  | nil => intro st acc _; rfl
  | cons v rest ih =>
    intro st acc h
    obtain ⟨hs, hi⟩ := h v (List.mem_cons_self v rest)
    simp only [main_loop]
    have hstore : (scrape_and_send env st v).store = st := by
      rw [scrape_store_of_not_scraped env st v 120 hs, hi]
    have hsent : (scrape_and_send env st v).sent = [] := by
      rw [scrape_sent_of_not_scraped env st v 120 hs, hi]
    rw [hstore, hsent, List.append_nil]
    exact ih st acc (fun u hu => h u (List.mem_cons_of_mem v hu))

/-- `role_line` always embeds the (possibly unshortened) link followed by a
newline. -/
theorem role_line_split (key short : String) :
    ∃ p, role_line key short = p ++ (short ++ "\n") := by
  unfold role_line
  by_cases h1 : strContains key "Job Advertisement"
  · exact ⟨"📝 Job Advertisement: ", by rw [if_pos h1, String.append_assoc]⟩
  · rw [if_neg h1]
    by_cases h2 : strContains key "Job Notification"
    · exact ⟨"📄 Job Notification: ", by rw [if_pos h2, String.append_assoc]⟩
    · rw [if_neg h2]
      by_cases h3 : strContains key "Official website"
      · exact ⟨"🌐 Official Website: ", by rw [if_pos h3, String.append_assoc]⟩
      · rw [if_neg h3]
        by_cases h4 : strContains key "Apply Online"
        · exact ⟨"🖥️ Apply Online: ", by rw [if_pos h4, String.append_assoc]⟩
        · exact ⟨"🔗 " ++ key ++ ": ", by rw [if_neg h4, String.append_assoc]⟩

/-- Occurrence survives appending on the right. -/
theorem containsSub_append_right (s t u : String) (h : ContainsSub s u) :
    ContainsSub (s ++ t) u := by
  obtain ⟨a, b, rfl⟩ := h
  exact ⟨a, b ++ t, by rw [String.append_assoc, String.append_assoc]⟩

/-- Occurrence survives appending on the left. -/
theorem containsSub_append_left (s t u : String) (h : ContainsSub t u) :
    ContainsSub (s ++ t) u := by
  obtain ⟨a, b, rfl⟩ := h
  exact ⟨s ++ a, b, by rw [String.append_assoc, String.append_assoc, String.append_assoc]⟩

/-- The message accumulated by `handle_fold` only ever grows. -/
theorem handle_fold_msg_mono (env : Env) (u : String) :
    ∀ (jd : List (String × String)) (msg : String) (jnf : Option String)
      (others : List String), ContainsSub msg u →
      ContainsSub (handle_fold env (msg, jnf, others) jd).1 u := by
  intro jd
  induction jd with
  | nil => intro msg jnf others h; exact h
  | cons kv rest ih =>
    intro msg jnf others h
    obtain ⟨k, url⟩ := kv
    have h' : ContainsSub (msg ++ role_line k (shorten_url env url)) u :=
      containsSub_append_right _ _ _ h
    rcases hfp : (download_and_verify_file env url).1 with _ | p
    · simpa [handle_fold, hfp] using ih _ jnf others h'
    · by_cases hk : strContains k "Job Notification"
      · simpa [handle_fold, hfp, hk] using ih _ (some p) others h'
      · simpa [handle_fold, hfp, hk] using ih _ jnf (others ++ [p]) h'

/-- If some entry of `job_details` holds the link `u` and shortening returns
`u` unchanged, the accumulated message contains `u`. -/
theorem handle_fold_msg_mem (env : Env) (k u : String)
    (hsh : shorten_url env u = u) :
    ∀ (jd : List (String × String)) (msg : String) (jnf : Option String)
      (others : List String), (k, u) ∈ jd →
      ContainsSub (handle_fold env (msg, jnf, others) jd).1 u := by
  intro jd
  induction jd with
  | nil => intro msg jnf others h; exact absurd h (List.not_mem_nil _)
  | cons kv rest ih =>
    intro msg jnf others hmem
    rcases List.mem_cons.mp hmem with heq | hmem'
    · obtain ⟨p, hp⟩ := role_line_split k u
      have hline : ContainsSub (role_line k u) u :=
        ⟨p, "\n", by rw [hp, String.append_assoc]⟩
      have h' : ContainsSub (msg ++ role_line k (shorten_url env u)) u := by
        rw [hsh]
        exact containsSub_append_left _ _ _ hline
      subst heq
      rcases hfp : (download_and_verify_file env u).1 with _ | q
      · simpa [handle_fold, hfp] using handle_fold_msg_mono env u rest _ jnf others h'
      · by_cases hk : strContains k "Job Notification"
        · simpa [handle_fold, hfp, hk] using
            handle_fold_msg_mono env u rest _ (some q) others h'
        · simpa [handle_fold, hfp, hk] using
            handle_fold_msg_mono env u rest _ jnf (others ++ [q]) h'
    · obtain ⟨k', u'⟩ := kv
      rcases hfp : (download_and_verify_file env u').1 with _ | q
      · simpa [handle_fold, hfp] using ih _ jnf others hmem'
      · by_cases hk : strContains k' "Job Notification"
        · simpa [handle_fold, hfp, hk] using ih _ (some q) others hmem'
        · simpa [handle_fold, hfp, hk] using ih _ jnf (others ++ [q]) hmem'

/-- The file slots computed by `handle_fold`: `job_notification_file` is the
last successful Notification-role download (overwrite semantics, expressed as
a fold), `other_files` collects the successful downloads of the remaining
roles in order. -/
theorem handle_fold_files (env : Env) :
    ∀ (jd : List (String × String)) (msg : String) (jnf : Option String)
      (others : List String),
      (handle_fold env (msg, jnf, others) jd).2 =
        ((jd.filterMap (fun kv =>
            if strContains kv.1 "Job Notification"
            then (download_and_verify_file env kv.2).1 else none)).foldl
              (fun _ p => some p) jnf,
         others ++ jd.filterMap (fun kv =>
            if strContains kv.1 "Job Notification"
            then none else (download_and_verify_file env kv.2).1)) := by
  intro jd
  induction jd with
  | nil => intro msg jnf others; simp [handle_fold]
  | cons kv rest ih =>
    intro msg jnf others
    obtain ⟨k, url⟩ := kv
    rcases hfp : (download_and_verify_file env url).1 with _ | p
    · by_cases hk : strContains k "Job Notification" <;>
        simp [handle_fold, hfp, hk, ih]
    · by_cases hk : strContains k "Job Notification"
      · simp [handle_fold, hfp, hk, ih]
      · simp [handle_fold, hfp, hk, ih]

/-- A member of a list of length at most one is its only element. -/
theorem eq_singleton_of_mem_of_length_le_one {α : Type} {l : List α} {a : α}
    (hm : a ∈ l) (hl : l.length ≤ 1) : l = [a] := by
  match l, hm with
  | [x], hm =>
    rcases List.mem_singleton.mp hm with rfl
    rfl
  | x :: y :: t, _ => simp at hl

/-- Mapping-then-keeping over a filter equals keeping with a guarded map. -/
theorem filterMap_guard_eq_filter {α β : Type} (p : α → Bool) (g : α → Option β) :
    ∀ l : List α,
      l.filterMap (fun a => if p a then g a else none) =
        (l.filter p).filterMap g := by
  intro l
  induction l with
  | nil => rfl
  | cons a t ih =>
    by_cases hp : p a
    · rcases hg : g a with _ | b <;>
        simp [List.filterMap_cons, List.filter_cons, hp, hg, ih]
    · simp [List.filterMap_cons, List.filter_cons, hp, ih]

/-- Pointwise-equal partial maps give equal `filterMap`s. -/
theorem filterMap_congr_mem {α β : Type} {f g : α → Option β} :
    ∀ {l : List α}, (∀ a ∈ l, f a = g a) → l.filterMap f = l.filterMap g := by
  intro l
  induction l with
  | nil => intro _; rfl
  | cons a t ih =>
    intro h
    have ha := h a (List.mem_cons_self a t)
    have ht := ih (fun x hx => h x (List.mem_cons_of_mem a hx))
    simp [List.filterMap_cons, ha, ht]

/-! ## Claim theorems -/

/-- C1.  The claim says a TLS validation failure triggers exactly one further
attempt with verification disabled.  In the source every call site uses the
default `max_retries=1`, so the fallback call `make_request(url, verify=False,
max_retries=0)` runs `for attempt in range(0)` — zero iterations — and no
unverified request is ever issued: for any world whose first verified GET
raises `SSLError`, the only request issued is the verified one (the attempt
trace is `[true]`) and the call returns `None`. -/
theorem make_request_ssl_fallback_never_runs (env : Env) (url : String)
    (h : env.fetch url true 0 = FetchOutcome.sslError) :
    make_request env url = (none, [true]) := by
  unfold make_request
  rw [if_pos rfl]
  unfold mr_loop
  simp [h, make_request_noverify, mr_loop]

/-- C1 witness: a concrete all-`SSLError` world. -/
theorem make_request_ssl_fallback_never_runs_witness :
    make_request envSsl "https://www.marugujarat.in/" = (none, [true]) :=
  make_request_ssl_fallback_never_runs envSsl "https://www.marugujarat.in/" rfl

/-- C2 counterexample.  In `envSlow` one item occupies 161 s of wall-clock
time (1 s extraction + five links at 2 s shortener pause and 30 s download
timeout each) — well beyond the 120 s `scrape_and_send` timeout — yet the
item is NOT abandoned: a checkpoint record is written and a notification is
sent, because `asyncio.wait_for` wraps only `scrape_selected_url`. -/
theorem scrape_and_send_timeout_not_overall :
    120 < item_elapsed envSlow "https://u" ∧
    (scrape_and_send envSlow [] "https://u").store.length = 1 ∧
    (scrape_and_send envSlow [] "https://u").sent.length = 1 := by
  refine ⟨by decide, by decide, by decide⟩

/-- C2 amended.  The per-item timeout bounds the extraction stage only:
whenever extraction alone would exceed it, the item is abandoned — the
checkpoint store is unchanged and nothing is sent.  (Attachment fetches,
composition and notification run outside this timeout, as the
counterexample shows.) -/
theorem scrape_and_send_timeout_bounds_extraction_only (env : Env)
    (st : List Record) (url : String) (T : Nat)
    (h : T < env.extractTime url) :
    (scrape_and_send env st url T).store = st ∧
    (scrape_and_send env st url T).sent = [] := by
  unfold scrape_and_send
  by_cases hs : is_url_scraped st url
  · simp [hs]
  · simp [hs, h]

/-- C2 amended witness: with a zero-second budget the `envSlow` item (1 s
extraction) is abandoned without checkpoint or notification. -/
theorem scrape_and_send_timeout_bounds_extraction_only_witness :
    (scrape_and_send envSlow [] "https://u" 0).store = [] ∧
    (scrape_and_send envSlow [] "https://u" 0).sent = [] :=
  scrape_and_send_timeout_bounds_extraction_only envSlow [] "https://u" 0 (by decide)

/-- C7.  A download whose response body is empty is never returned as a valid
attachment path and leaves no file behind: `download_and_verify_file` yields
`None` and its set of files left on disk is empty (the zero-byte file is
written and then `os.remove`d). -/
theorem zero_byte_download_rejected (env : Env) (url : String) (T : Nat)
    (resp : HttpResponse) (h1 : (make_request env url).1 = some resp)
    (h2 : resp.bodySize = 0) :
    download_and_verify_file env url T = (none, []) := by
  unfold download_and_verify_file
  by_cases ht : T < env.downloadTime url
  · simp [ht]
  · rw [if_neg ht, h1]
    rcases hct : resp.contentType with _ | ct
    · simp [hct]
    · by_cases hpdf : strContains ct "pdf"
      · simp [hct, hpdf, h2]
      · by_cases himg : strContains ct "image"
        · rcases hsub : subtypeOf ct with _ | sub <;>
            simp [hct, hpdf, himg, hsub, h2]
        · simp [hct, hpdf, himg, h2]

/-- C7 witness: `envZero` serves a zero-byte PDF. -/
theorem zero_byte_download_rejected_witness :
    download_and_verify_file envZero "https://h/a.pdf" 30 = (none, []) :=
  zero_byte_download_rejected envZero "https://h/a.pdf" 30
    { contentType := some "application/pdf", bodySize := 0 } (by decide) rfl

/-- C8.  When the shortening service errors on a link, `shorten_url` returns
the original URL unchanged (it catches the exception, never failing its
caller), the composed message still contains the original long URL, and the
item is still composed and handed to the transport. -/
theorem shorten_failure_graceful (env : Env) (t k u e : String)
    (jd : List (String × String)) (hmem : (k, u) ∈ jd)
    (herr : env.shorten u = Except.error e) :
    shorten_url env u = u ∧
    ∃ s, handle_files_and_send_to_telegram env (some t) jd = some s ∧
      ContainsSub s.text u := by
  have hsh : shorten_url env u = u := by unfold shorten_url; rw [herr]
  refine ⟨hsh, ?_⟩
  refine ⟨_, rfl, ?_⟩
  show ContainsSub ((handle_fold env _ jd).1 ++ promo_message ++ promo_message_1) u
  apply containsSub_append_right
  apply containsSub_append_right
  exact handle_fold_msg_mem env k u hsh jd _ none [] hmem

/-- C8 witness: in `envOk` the shortener always errors; the message still
contains the original link and a message is produced. -/
theorem shorten_failure_graceful_witness :
    shorten_url envOk "https://h/b.pdf" = "https://h/b.pdf" ∧
    ∃ s, handle_files_and_send_to_telegram envOk (some "T")
        [("Official website", "https://h/a.pdf"),
         ("Job Notification", "https://h/b.pdf")] = some s ∧
      ContainsSub s.text "https://h/b.pdf" :=
  shorten_failure_graceful envOk "T" "Job Notification" "https://h/b.pdf" "rate"
    [("Official website", "https://h/a.pdf"), ("Job Notification", "https://h/b.pdf")]
    (by decide) rfl

/-- C9 counterexample.  The claim says a duplicate `mark_url_as_scraped`
leaves the store in the same state as a single call with respect to the
record set.  It does not: `insert_one` is a plain insert, so the second call
appends a second document for the same URL. -/
theorem mark_twice_changes_record_set :
    mark_url_as_scraped (mark_url_as_scraped [] "u" "t" 0) "u" "t" 0 ≠
      mark_url_as_scraped [] "u" "t" 0 := by decide

/-- C9 amended.  A duplicate `mark_url_as_scraped` for the same URL is
harmless for the dedup predicate — `is_url_scraped` answers exactly as after
a single call, for every queried URL — but it appends a second record rather
than performing an idempotent insert or upsert. -/
theorem mark_twice_dedup_unchanged (s : List Record) (u t t' : String)
    (n n' : Nat) (v : String) :
    is_url_scraped (mark_url_as_scraped (mark_url_as_scraped s u t n) u t' n') v =
      is_url_scraped (mark_url_as_scraped s u t n) v := by
  rw [is_url_scraped_mark, is_url_scraped_mark]
  cases h : (u == v) <;> simp [h]

/-- C3.  The checkpoint write happens only after the Notifying stage:
every `marked` event is strictly preceded by a `notified` event, and when no
notification happened (unreachable page, missing/empty title, extraction
timeout), a URL absent from the checkpoint store stays absent. -/
theorem checkpoint_only_after_notify (env : Env) (st : List Record)
    (url : String) (T : Nat) :
    (∀ i, (scrape_and_send env st url T).events.get? i = some (Event.marked url) →
      ∃ j, j < i ∧ (scrape_and_send env st url T).events.get? j = some Event.notified) ∧
    (is_url_scraped st url = false →
      Event.notified ∉ (scrape_and_send env st url T).events →
      is_url_scraped (scrape_and_send env st url T).store url = false) := by
  unfold scrape_and_send
  by_cases h0 : is_url_scraped st url
  · simp only [h0, if_true]
    constructor
    · intro i h
      rcases i with _ | i <;> simp at h
    · intro hfalse _
      exact hfalse
  · have h0' : is_url_scraped st url = false := by simpa using h0
    simp only [h0', Bool.false_eq_true, if_false]
    by_cases hT : T < env.extractTime url
    · simp only [hT, if_true]
      constructor
      · intro i h
        rcases i with _ | i <;> simp at h
      · intro _ _
        exact h0'
    · simp only [hT, if_false]
      rcases hx : scrape_selected_url env url with ⟨t?, jd⟩
      rcases t? with _ | t
      · constructor
        · intro i h
          rcases i with _ | i <;> simp at h
        · intro _ _
          exact h0'
      · by_cases ht : t = ""
        · simp only [ht, if_pos rfl]
          constructor
          · intro i h
            rcases i with _ | i <;> simp at h
          · intro _ _
            exact h0'
        · simp only [if_neg ht]
          constructor
          · intro i h
            rcases i with _ | _ | _ | i
            · simp at h
            · simp at h
            · exact ⟨1, by omega, rfl⟩
            · simp at h
          · intro _ hnot
            exact absurd (by simp) hnot

/-- C3 witness: in `envOk` the success path has its `notified` event before
the `marked` event; in `envSsl` the extraction fails and the URL stays out of
the store. -/
theorem checkpoint_only_after_notify_witness :
    (∃ j, j < 2 ∧
      (scrape_and_send envOk [] "https://www.marugujarat.in/job-x/").events.get? j =
        some Event.notified) ∧
    is_url_scraped (scrape_and_send envSsl [] "u" 120).store "u" = false := by
  constructor
  · exact (checkpoint_only_after_notify envOk [] "https://www.marugujarat.in/job-x/" 120).1
      2 (by decide)
  · exact (checkpoint_only_after_notify envSsl [] "u" 120).2 (by decide) (by decide)

/-- C4.  Running the full discovery-and-delivery cycle a second time over the
store produced by the first run (with the same deterministic world, hence the
same discovered URLs) sends zero additional notifications and writes zero
additional checkpoint records: every URL checkpointed by the first run is
filtered out, and every URL the first run left unchecked fails identically
again. -/
theorem main_run_idempotent (env : Env) (store0 : List Record) :
    (main_run env (main_run env store0).1).2 = [] ∧
    (main_run env (main_run env store0).1).1 = (main_run env store0).1 := by
  have hdef : ∀ s : List Record,
      main_run env s = main_loop env (s, []) (get_unscraped_urls s (fetch_urls env)) :=
    fun _ => rfl
  have key : ∀ u ∈ get_unscraped_urls (main_run env store0).1 (fetch_urls env),
      is_url_scraped (main_run env store0).1 u = false ∧
        item_attempt env u 120 = none := by
    intro u hu
    obtain ⟨hu_urls, hpred⟩ := List.mem_filter.mp hu
    have hnot : is_url_scraped (main_run env store0).1 u = false := by
      simpa using hpred
    refine ⟨hnot, ?_⟩
    have h0 : is_url_scraped store0 u = false := by
      cases h : is_url_scraped store0 u
      · rfl
      · exfalso
        have hsc : is_url_scraped (main_run env store0).1 u = true := by
          rw [hdef]
          exact main_loop_mono env _ store0 [] u h
        rw [hsc] at hnot
        exact absurd hnot (by decide)
    have hG : u ∈ get_unscraped_urls store0 (fetch_urls env) :=
      List.mem_filter.mpr ⟨hu_urls, by simp [h0]⟩
    refine main_loop_absent env u _ store0 [] hG ?_
    rw [← hdef]
    exact hnot
  have hin := main_loop_inert env
    (get_unscraped_urls (main_run env store0).1 (fetch_urls env))
    (main_run env store0).1 [] key
  constructor
  · rw [hdef ((main_run env store0).1), hin]
  · rw [hdef ((main_run env store0).1), hin]

/-- C5.  The composed message carries the Notification-role attachment when
it downloaded successfully; otherwise the first successfully downloaded
attachment in role-processing order; otherwise none.  (Stated for item pages
with at most one Notification-role link, which is what a Python dict keyed by
label text produces.) -/
theorem attachment_selection_policy (env : Env) (t : String)
    (jd : List (String × String))
    (h : (jd.filter (fun kv => strContains kv.1 "Job Notification")).length ≤ 1) :
    ∃ s, handle_files_and_send_to_telegram env (some t) jd = some s ∧
      s.file =
        (match jd.find? (fun kv => strContains kv.1 "Job Notification") with
         | some kv =>
           (match (download_and_verify_file env kv.2).1 with
            | some p => some p
            | none =>
              (jd.filterMap (fun kv => (download_and_verify_file env kv.2).1)).head?)
         | none =>
           (jd.filterMap (fun kv => (download_and_verify_file env kv.2).1)).head?) := by
  refine ⟨_, rfl, ?_⟩
  show (match (handle_fold env ("📢 " ++ t ++ " 📢\n\n", none, []) jd).2.1 with
        | some f => some f
        | none => (handle_fold env ("📢 " ++ t ++ " 📢\n\n", none, []) jd).2.2.head?) = _
  rw [handle_fold_files env jd]
  simp only [List.nil_append]
  rcases hfind : jd.find? (fun kv => strContains kv.1 "Job Notification") with _ | kv
  · have hall : ∀ kv ∈ jd, strContains kv.1 "Job Notification" = false := by
      intro kv hkv
      have := List.find?_eq_none.mp hfind kv hkv
      simpa using this
    have hns : jd.filterMap (fun kv =>
        if strContains kv.1 "Job Notification"
        then (download_and_verify_file env kv.2).1 else none) = [] := by
      rw [filterMap_guard_eq_filter]
      have : jd.filter (fun kv => strContains kv.1 "Job Notification") = [] := by
        rw [List.filter_eq_nil_iff]
        intro kv hkv
        simp [hall kv hkv]
      rw [this]
      rfl
    have hos : jd.filterMap (fun kv =>
        if strContains kv.1 "Job Notification"
        then none else (download_and_verify_file env kv.2).1) =
        jd.filterMap (fun kv => (download_and_verify_file env kv.2).1) := by
      apply filterMap_congr_mem
      intro kv hkv
      simp [hall kv hkv]
    rw [hns, hos, hfind]
    rfl
  · have hp : strContains kv.1 "Job Notification" = true := by
      have := List.find?_some hfind
      simpa using this
    have hmem : kv ∈ jd := List.mem_of_find?_eq_some hfind
    have hfilter : jd.filter (fun kv => strContains kv.1 "Job Notification") = [kv] :=
      eq_singleton_of_mem_of_length_le_one (List.mem_filter.mpr ⟨hmem, hp⟩) h
    have hns : jd.filterMap (fun kv =>
        if strContains kv.1 "Job Notification"
        then (download_and_verify_file env kv.2).1 else none) =
        [kv].filterMap (fun kv => (download_and_verify_file env kv.2).1) := by
      rw [filterMap_guard_eq_filter, hfilter]
    rcases hdl : (download_and_verify_file env kv.2).1 with _ | p
    · have hns' : jd.filterMap (fun kv =>
          if strContains kv.1 "Job Notification"
          then (download_and_verify_file env kv.2).1 else none) = [] := by
        rw [hns]
        simp [List.filterMap_cons, hdl]
      have hos : jd.filterMap (fun kv =>
          if strContains kv.1 "Job Notification"
          then none else (download_and_verify_file env kv.2).1) =
          jd.filterMap (fun kv => (download_and_verify_file env kv.2).1) := by
        apply filterMap_congr_mem
        intro kv' hkv'
        by_cases hp' : strContains kv'.1 "Job Notification"
        · have : kv' = kv := by
            have hm' : kv' ∈ jd.filter (fun kv => strContains kv.1 "Job Notification") :=
              List.mem_filter.mpr ⟨hkv', hp'⟩
            rw [hfilter] at hm'
            exact List.mem_singleton.mp hm'
          rw [this] at hp' ⊢
          simp [hp', hdl]
        · simp [hp']
      rw [hns', hos]
      simp only [hfind, hdl]
      rfl
    · have hns' : jd.filterMap (fun kv =>
          if strContains kv.1 "Job Notification"
          then (download_and_verify_file env kv.2).1 else none) = [p] := by
        rw [hns]
        simp [List.filterMap_cons, hdl]
      rw [hns']
      simp only [hfind, hdl]
      rfl

/-- C5 witness: with both an Official-website and a Job-Notification link
downloading successfully, the Notification-role file is attached. -/
theorem attachment_selection_policy_witness :
    ∃ s, handle_files_and_send_to_telegram envOk (some "T")
        [("Official website", "https://h/a.pdf"),
         ("Job Notification", "https://h/b.pdf")] = some s ∧
      s.file = some "b.pdf.pdf" := by
  obtain ⟨s, hs, hfile⟩ := attachment_selection_policy envOk "T"
    [("Official website", "https://h/a.pdf"), ("Job Notification", "https://h/b.pdf")]
    (by decide)
  exact ⟨s, hs, by rw [hfile]; decide⟩

/-- C6.  A successful download's filename is the URL path's basename (with a
fixed `download` placeholder if the path is empty) followed by the extension:
`.pdf` when the declared content type mentions `pdf`, the image subtype's
extension when it mentions `image`, otherwise the URL path's existing
extension, defaulting to `.pdf` when the path has none. -/
theorem download_naming_policy (env : Env) (url : String) (T : Nat)
    (resp : HttpResponse) (ct fn : String)
    (h1 : (make_request env url).1 = some resp)
    (h2 : resp.contentType = some ct)
    (h3 : (download_and_verify_file env url T).1 = some fn) :
    fn = (if basename (url_path url) = "" then "download"
          else basename (url_path url)) ++
      (if strContains ct "pdf" then ".pdf"
       else if strContains ct "image" then "." ++ (subtypeOf ct).getD ""
       else if splitext_ext (url_path url) = "" then ".pdf"
       else splitext_ext (url_path url)) := by
  unfold download_and_verify_file at h3
  by_cases htm : T < env.downloadTime url
  · rw [if_pos htm] at h3
    simp at h3
  · rw [if_neg htm] at h3
    simp only [h1, h2] at h3
    by_cases hpdf : strContains ct "pdf"
    · simp only [hpdf, if_true] at h3 ⊢
      by_cases hb : 0 < resp.bodySize
      · simp only [hb, if_true] at h3
        simp at h3
        exact h3.symm
      · simp [hb] at h3
    · by_cases himg : strContains ct "image"
      · rcases hsub : subtypeOf ct with _ | sub
        · simp [hpdf, himg, hsub] at h3
        · simp only [hpdf, if_neg, himg, if_true, hsub, Bool.false_eq_true] at h3 ⊢
          by_cases hb : 0 < resp.bodySize
          · simp only [hb, if_true] at h3
            simp at h3
            simp [← h3]
          · simp [hb] at h3
      · simp only [hpdf, himg, Bool.false_eq_true, if_false] at h3 ⊢
        by_cases hb : 0 < resp.bodySize
        · simp only [hb, if_true] at h3
          simp at h3
          exact h3.symm
        · simp [hb] at h3

/-- C6 witness: a PDF content type on a URL whose path ends in `.pdf`. -/
theorem download_naming_policy_witness :
    (download_and_verify_file envOk "https://h/a.pdf" 30).1 = some "a.pdf.pdf" ∧
    "a.pdf.pdf" =
      (if basename (url_path "https://h/a.pdf") = "" then "download"
       else basename (url_path "https://h/a.pdf")) ++
        (if strContains "application/pdf" "pdf" then ".pdf"
         else if strContains "application/pdf" "image" then
           "." ++ (subtypeOf "application/pdf").getD ""
         else if splitext_ext (url_path "https://h/a.pdf") = "" then ".pdf"
         else splitext_ext (url_path "https://h/a.pdf")) := by
  refine ⟨by decide, ?_⟩
  exact download_naming_policy envOk "https://h/a.pdf" 30 respPdf "application/pdf"
    "a.pdf.pdf" (by decide) rfl (by decide)

/-- C10.  `send_to_telegram` swallows transport exceptions, so a
notification-delivery failure still produces a checkpoint record: when
extraction succeeds and the transport rejects every message, the URL is
checkpointed anyway (and the one message handed to the transport is recorded
as undelivered). -/
theorem delivery_failure_still_checkpoints (env : Env) (st : List Record)
    (url : String) (T : Nat) (t : String) (jd : List (String × String))
    (h0 : is_url_scraped st url = false)
    (hT : ¬ T < env.extractTime url)
    (hx : scrape_selected_url env url = (some t, jd))
    (ht : t ≠ "")
    (hfail : ∀ m f, ∃ emsg, env.deliver m f = Except.error emsg) :
    is_url_scraped (scrape_and_send env st url T).store url = true ∧
    ∃ s, (scrape_and_send env st url T).sent = [s] ∧ s.delivered = false := by
  obtain ⟨s, hs, hdel⟩ := handle_some env t jd
  have hsc : scrape_and_send env st url T =
      ⟨mark_url_as_scraped st url t env.now, [s],
        [.extracted, .notified, .marked url]⟩ := by
    unfold scrape_and_send
    simp [h0, hT, hx, ht, hs]
  rw [hsc]
  refine ⟨?_, s, rfl, ?_⟩
  · rw [is_url_scraped_mark]
    simp
  · rw [hdel]
    unfold send_to_telegram
    obtain ⟨e, he⟩ := hfail s.text s.file
    rw [he]

/-- C10 witness: in `envOk` the transport always errors, yet the item is
checkpointed and the single composed message is recorded undelivered. -/
theorem delivery_failure_still_checkpoints_witness :
    is_url_scraped
      (scrape_and_send envOk [] "https://www.marugujarat.in/job-x/" 120).store
      "https://www.marugujarat.in/job-x/" = true ∧
    ∃ s, (scrape_and_send envOk [] "https://www.marugujarat.in/job-x/" 120).sent = [s] ∧
      s.delivered = false :=
  delivery_failure_still_checkpoints envOk [] "https://www.marugujarat.in/job-x/" 120
    "Job X"
    [("Official website", "https://h/a.pdf"), ("Job Notification", "https://h/b.pdf")]
    (by decide) (by decide) (by decide) (by decide)
    (fun _ _ => ⟨"down", rfl⟩)

end MaruGujarat
